import Mathlib

/-!
Verification of the SonyRemote CLI (sony-remote.py): a shallow embedding of
the request-building client class, the response-rendering logic of the
main block, and the subcommand resolution, together with proofs of the
specified properties.

JSON numeric literals occurring in the program are integers, so numbers are
modelled as `Int`.
-/

set_option autoImplicit false

namespace SonyRemoteSpec

/-- A decoded JSON value, as produced by json.loads / consumed by json.dumps.
Objects keep key order (Python dicts preserve insertion order); decoded
objects have pairwise-distinct keys. -/
inductive Json where
  | null
  | bool (b : Bool)
  | num (n : Int)
  | str (s : String)
  | arr (xs : List Json)
  | obj (kvs : List (String × Json))

/-- First-match association lookup on an object's key-value list
(Python dict lookup; decoded dicts have unique keys). -/
def jsonLookupList : List (String × Json) → String → Option Json
  | [], _ => none
  | (k, v) :: rest, key => if k == key then some v else jsonLookupList rest key

/-- Python truthiness of a decoded JSON value. -/
def jsonTruthy : Json → Bool
  | Json.null => false
  | Json.bool b => b
  | Json.num n => n != 0
  | Json.str s => s != ""
  | Json.arr xs => !xs.isEmpty
  | Json.obj kvs => !kvs.isEmpty

/-- Python equality test of a decoded JSON value against an int literal
(booleans compare as 0/1 in Python). -/
def jeqNum (j : Json) (n : Int) : Bool :=
  match j with
  | Json.num m => m == n
  | Json.bool b => (if b then (1 : Int) else 0) == n
  | _ => false

/-- Contiguous-sublist test on character lists. -/
def listInfixOf (needle : List Char) : List Char → Bool
  | [] => needle.isEmpty
  | c :: tl => needle.isPrefixOf (c :: tl) || listInfixOf needle tl

/-- Python substring membership test: needle in hay. -/
def strContains (hay needle : String) : Bool :=
  listInfixOf needle.toList hay.toList

/-- Exceptions the rendering code can raise. -/
inductive PyError where
  | typeError
  | indexError
  | keyError
  deriving DecidableEq, Repr

/-- One unit of terminal output: a printed line, or the help text that
argparser.print_help() emits. -/
inductive Out where
  | text (s : String)
  | help
  deriving DecidableEq

/-- Python membership test key in j, for the shapes json.loads can return:
key lookup on dicts, substring test on strings, element equality on lists;
TypeError on non-iterables. -/
def pyContains (j : Json) (key : String) : Except PyError Bool :=
  match j with
  | Json.obj kvs => Except.ok (jsonLookupList kvs key).isSome
  | Json.str s => Except.ok (strContains s key)
  | Json.arr xs => Except.ok (xs.any fun x =>
      match x with
      | Json.str t => t == key
      | _ => false)
  | _ => Except.error PyError.typeError

/-- Python subscript j[key] with a string key: dict lookup (KeyError when
absent); TypeError on strings, lists and non-subscriptables. -/
def pySubscript (j : Json) (key : String) : Except PyError Json :=
  match j with
  | Json.obj kvs =>
    match jsonLookupList kvs key with
    | some v => Except.ok v
    | none => Except.error PyError.keyError
  | _ => Except.error PyError.typeError

/-- Python subscript j[i] with an int index: list/string indexing (IndexError
out of range); KeyError on dicts (string-keyed); TypeError otherwise. -/
def pyIndexNat (j : Json) (i : Nat) : Except PyError Json :=
  match j with
  | Json.arr xs =>
    match xs.get? i with
    | some v => Except.ok v
    | none => Except.error PyError.indexError
  | Json.str s =>
    match s.toList.get? i with
    | some c => Except.ok (Json.str (String.singleton c))
    | none => Except.error PyError.indexError
  | Json.obj _ => Except.error PyError.keyError
  | _ => Except.error PyError.typeError

/-- Python len() of a decoded JSON value. -/
def pyLen (j : Json) : Except PyError Nat :=
  match j with
  | Json.arr xs => Except.ok xs.length
  | Json.str s => Except.ok s.length
  | Json.obj kvs => Except.ok kvs.length
  | _ => Except.error PyError.typeError

/-- Python iteration over a decoded JSON value: list elements, string
characters, dict keys; TypeError otherwise. -/
def pyIter (j : Json) : Except PyError (List Json) :=
  match j with
  | Json.arr xs => Except.ok xs
  | Json.str s => Except.ok (s.toList.map fun c => Json.str (String.singleton c))
  | Json.obj kvs => Except.ok (kvs.map fun kv => Json.str kv.1)
  | _ => Except.error PyError.typeError

/-- Escape one character the way json.dumps escapes string contents
(the characters appearing in this program's data). -/
def escChar (c : Char) : String :=
  if c = '"' then "\\\""
  else if c = '\\' then "\\\\"
  else if c = '\n' then "\\n"
  else String.singleton c

/-- json.dumps string-content escaping. -/
def escape (s : String) : String :=
  String.join (s.toList.map escChar)

/-- n spaces. -/
def spaces (n : Nat) : String :=
  String.mk (List.replicate n ' ')

/-- Wrap in double quotes. -/
def quoteStr (s : String) : String :=
  "\"" ++ s ++ "\""

mutual

/-- json.dumps(j, indent=2): pretty-printed JSON text of j, with the current
nesting level lvl (top-level call uses lvl = 0). -/
def dumpsInd (lvl : Nat) : Json → String
  | Json.null => "null"
  | Json.bool true => "true"
  | Json.bool false => "false"
  | Json.num n => toString n
  | Json.str s => quoteStr (escape s)
  | Json.arr xs =>
    match xs with
    | [] => "[]"
    | _ => "[\n" ++ String.intercalate ",\n" (dumpsItems (lvl + 1) xs)
        ++ "\n" ++ spaces (2 * lvl) ++ "]"
  | Json.obj kvs =>
    match kvs with
    | [] => "\x7b\x7d"
    | _ => "\x7b\n" ++ String.intercalate ",\n" (dumpsFields (lvl + 1) kvs)
        ++ "\n" ++ spaces (2 * lvl) ++ "\x7d"

/-- Indented renderings of the elements of a JSON array at level lvl. -/
def dumpsItems (lvl : Nat) : List Json → List String
  | [] => []
  | x :: xs => (spaces (2 * lvl) ++ dumpsInd lvl x) :: dumpsItems lvl xs

/-- Indented key: value renderings of the fields of a JSON object at level
lvl. -/
def dumpsFields (lvl : Nat) : List (String × Json) → List String
  | [] => []
  | (k, v) :: xs =>
    (spaces (2 * lvl) ++ quoteStr (escape k) ++ ": " ++ dumpsInd lvl v)
      :: dumpsFields lvl xs

end

mutual

/-- Python repr() of a decoded JSON value (what print shows for dicts and
lists: single-quoted strings, True/False/None). \x27 is the single-quote
character. -/
def pyRepr : Json → String
  | Json.null => "None"
  | Json.bool true => "True"
  | Json.bool false => "False"
  | Json.num n => toString n
  | Json.str s => "\x27" ++ s ++ "\x27"
  | Json.arr xs => "[" ++ String.intercalate ", " (pyReprItems xs) ++ "]"
  | Json.obj kvs => "\x7b" ++ String.intercalate ", " (pyReprFields kvs) ++ "\x7d"

/-- repr of each element of a list. -/
def pyReprItems : List Json → List String
  | [] => []
  | x :: xs => pyRepr x :: pyReprItems xs

/-- repr of each key: value field of a dict. -/
def pyReprFields : List (String × Json) → List String
  | [] => []
  | (k, v) :: xs => ("\x27" ++ k ++ "\x27: " ++ pyRepr v) :: pyReprFields xs

end

/-- Python str() of a decoded JSON value, as used by f-string interpolation:
a string interpolates to its contents, everything else to its repr. -/
def pyStr (j : Json) : String :=
  match j with
  | Json.str s => s
  | _ => pyRepr j

/-- Is c one of the three characters the row printer deletes: the double
quote, the open brace (code 123) or the close brace (code 125)? -/
def strippedChar (c : Char) : Bool :=
  c = '"' || c = Char.ofNat 123 || c = Char.ofNat 125

/-- The textual transformation the row printer applies to the
pretty-printed JSON text: .replace with the double quote, then the open
brace, then the close brace, each replaced by the empty string. Replacing
a one-character pattern by the empty string deletes every occurrence of
that character, so the chain of three replaces is the filter that drops
those three characters. -/
def stripChars (s : String) : String :=
  String.mk (s.toList.filter fun c => !strippedChar c)

/-- The row-list selection of the main block: results = response[\x22result\x22];
if type(results[0]) is list and len(results) == 1 then results = results[0].
Stated on the result list. -/
def resultsRows : List Json → List Json
  | [Json.arr inner] => inner
  | rs => rs

/-- The response-rendering logic of the main block (lines 123-138), applied
to the decoded response body and the repr of the bound argument dict.
Returns the output sequence and the process exit status, or the Python
exception the code raises. Evaluation order follows the source: the
membership test, then response[error][1] (inside the printed f-string),
then response[error][0] for the three hint conditionals; exit(1) in the
error branch, implicit exit 0 otherwise. -/
def render (response : Json) (argsRepr : String) : Except PyError (List Out × Nat) :=
  match pyContains response "error" with
  | Except.error e => Except.error e
  | Except.ok true =>
    match pySubscript response "error" with
    | Except.error e => Except.error e
    | Except.ok err =>
      match pyIndexNat err 1 with
      | Except.error e => Except.error e
      | Except.ok msg =>
        match pyIndexNat err 0 with
        | Except.error e => Except.error e
        | Except.ok code =>
          Except.ok
            ([Out.text (pyStr msg ++ " | " ++ argsRepr ++ "\n")]
              ++ (if jeqNum code 3 then [Out.help] else [])
              ++ (if jeqNum code 12 then [Out.text "No Such Method (Check version)"] else [])
              ++ (if jeqNum code 14 then [Out.text "Unsupported Version"] else []), 1)
  | Except.ok false =>
    match pyContains response "result" with
    | Except.error e => Except.error e
    | Except.ok true =>
      match pySubscript response "result" with
      | Except.error e => Except.error e
      | Except.ok r =>
        if jsonTruthy r then
          match pyIndexNat r 0 with
          | Except.error e => Except.error e
          | Except.ok r0 =>
            if jsonTruthy r0 then
              match
                (match r0 with
                 | Json.arr inner =>
                   match pyLen r with
                   | Except.error e => Except.error e
                   | Except.ok n => Except.ok (if n == 1 then Json.arr inner else r)
                 | _ => Except.ok r) with
              | Except.error e => Except.error e
              | Except.ok results =>
                match pyIter results with
                | Except.error e => Except.error e
                | Except.ok items =>
                  Except.ok
                    (items.map fun it => Out.text (stripChars (dumpsInd 0 it)), 0)
            else Except.ok ([], 0)
        else Except.ok ([], 0)
    | Except.ok false => Except.ok ([Out.text (pyRepr response)], 0)

/-- The SonyRemote client state after __init__(host, psk, version):
ip and url make the POST address; id and version are the fields of the
mutable _base_data dict; psk is the X-Auth-PSK header value stored in the
session. -/
structure SonyRemote where
  ip : String
  url : String
  psk : String
  id : Int
  version : String
  deriving DecidableEq

/-- SonyRemote.__init__(host, psk, version): _base_data = both id 1 and the
given version, url segment "sony". -/
def SonyRemote.init (host psk version : String) : SonyRemote :=
  { ip := host, url := "sony", psk := psk, id := 1, version := version }

/-- One HTTP POST the client sends: the target URL and the object passed to
json.dumps as the body. Headers (Content-Type, X-Auth-PSK from the stored
psk) are fixed per client and omitted here. -/
structure HttpRequest where
  reqUrl : String
  bodyJson : Json

/-- SonyRemote._build_request(method, path, version, **kwargs): base is an
alias of self._base_data, so a truthy version argument overwrites the stored
version before the body dict is built as method, params = the one-element
list holding kwargs, then **base (id, version). Returns the updated client
state and the request sent. -/
def SonyRemote.build_request (s : SonyRemote) (method path : String)
    (version : Option String) (kwargs : List (String × Json)) :
    SonyRemote × HttpRequest :=
  let s1 := match version with
    | some v => if v != "" then { s with version := v } else s
    | none => s
  (s1,
   { reqUrl := "http://" ++ s1.ip ++ "/" ++ s1.url ++ "/" ++ path,
     bodyJson := Json.obj
       [("method", Json.str method),
        ("params", Json.arr [Json.obj kwargs]),
        ("id", Json.num s1.id),
        ("version", Json.str s1.version)] })

/-- Outcome of one client operation: a network call carrying a request, or a
locally synthesized response with no network call (SonyRemote.power on an
invalid status). -/
inductive OpResult where
  | sent (req : HttpRequest)
  | noCall (resp : Json)

/-- SonyRemote.power(status): "active" maps to status true, "standby" to
status false, anything else returns the error body [3, "Illegal Argument"]
without calling _build_request. -/
def SonyRemote.power (s : SonyRemote) (status : String) : SonyRemote × OpResult :=
  if status == "active" then
    let p := s.build_request "setPowerStatus" "system" none [("status", Json.bool true)]
    (p.1, OpResult.sent p.2)
  else if status == "standby" then
    let p := s.build_request "setPowerStatus" "system" none [("status", Json.bool false)]
    (p.1, OpResult.sent p.2)
  else
    (s, OpResult.noCall (Json.obj
      [("error", Json.arr [Json.num 3, Json.str "Illegal Argument"])]))

/-- SonyRemote.volume(volume, ui, target): setAudioVolume on audio with the
version override "1.2". -/
def SonyRemote.volume (s : SonyRemote) (volume ui target : String) :
    SonyRemote × OpResult :=
  let p := s.build_request "setAudioVolume" "audio" (some "1.2")
    [("volume", Json.str volume), ("ui", Json.str ui), ("target", Json.str target)]
  (p.1, OpResult.sent p.2)

/-- SonyRemote.app(uri): setActiveApp on appControl. -/
def SonyRemote.app (s : SonyRemote) (uri : String) : SonyRemote × OpResult :=
  let p := s.build_request "setActiveApp" "appControl" none [("uri", Json.str uri)]
  (p.1, OpResult.sent p.2)

/-- SonyRemote.reboot(): requestReboot on system. -/
def SonyRemote.reboot (s : SonyRemote) : SonyRemote × OpResult :=
  let p := s.build_request "requestReboot" "system" none []
  (p.1, OpResult.sent p.2)

/-- SonyRemote.screen_mirror(): setPlayContent on avContent with the fixed
uri extInput:widi?port=1. -/
def SonyRemote.screen_mirror (s : SonyRemote) : SonyRemote × OpResult :=
  let p := s.build_request "setPlayContent" "avContent" none
    [("uri", Json.str "extInput:widi?port=1")]
  (p.1, OpResult.sent p.2)

/-- SonyRemote.list_apps(): getApplicationList on appControl. -/
def SonyRemote.list_apps (s : SonyRemote) : SonyRemote × OpResult :=
  let p := s.build_request "getApplicationList" "appControl" none []
  (p.1, OpResult.sent p.2)

/-- SonyRemote.list_inputs(): getCurrentExternalInputsStatus on avContent
with the version override "1.1". -/
def SonyRemote.list_inputs (s : SonyRemote) : SonyRemote × OpResult :=
  let p := s.build_request "getCurrentExternalInputsStatus" "avContent"
    (some "1.1") []
  (p.1, OpResult.sent p.2)

/-- SonyRemote.check_power(): getPowerStatus on system. -/
def SonyRemote.check_power (s : SonyRemote) : SonyRemote × OpResult :=
  let p := s.build_request "getPowerStatus" "system" none []
  (p.1, OpResult.sent p.2)

/-- The non-underscore attributes of SonyRemote in dir() order (dir sorts
alphabetically), i.e. the method names the main block registers. -/
def methodNames : List String :=
  ["app", "check_power", "list_apps", "list_inputs",
   "power", "reboot", "screen_mirror", "volume"]

/-- A string with every underscore replaced by a hyphen (the one-character
.replace of main block line 110, character by character). -/
def hyphenate (s : String) : String :=
  String.mk (s.toList.map fun c => if c = '_' then '-' else c)

/-- A string with every hyphen replaced by an underscore (recovering the
method name of a registered subcommand). -/
def underscore (s : String) : String :=
  String.mk (s.toList.map fun c => if c = '-' then '_' else c)

/-- The registered subcommand names: each method name with underscores
replaced by hyphens (main block line 110). -/
def commandNames : List String :=
  methodNames.map hyphenate

/-- Outcome of command-line subcommand resolution. -/
inductive ParseOutcome where
  | resolved (methodName : String)
  | usageExit (code : Nat)
  deriving DecidableEq

/-- Subcommand resolution of the main block. A given token is matched
exactly against the registered subcommand names; an unknown choice makes
ArgumentParser.error print usage and call sys.exit(2) (CPython argparse).
With no subcommand, parsing succeeds without func bound, and the main block
prints help and exits 1 (lines 113-115). A resolved token recovers its
method, inverting the underscore-to-hyphen renaming of add_command. -/
def resolveCommand : Option String → ParseOutcome
  | none => ParseOutcome.usageExit 1
  | some tok =>
    if commandNames.contains tok then
      ParseOutcome.resolved (underscore tok)
    else ParseOutcome.usageExit 2

/-- The params and id invariant of one operation outcome: whenever a request
is sent, its body's params field is a one-element array holding exactly the
mapping kvs of declared arguments, and its id field is the literal 1. -/
def paramsExactly (o : OpResult) (kvs : List (String × Json)) : Prop :=
  ∀ r, o = OpResult.sent r →
    (pySubscript r.bodyJson "params" = Except.ok (Json.arr [Json.obj kvs]) ∧
     pySubscript r.bodyJson "id" = Except.ok (Json.num 1))

/-- C1: power("active") sends a request whose params mapping is
status: true, power("standby") sends status: false, and any other status
value returns the body error [3, "Illegal Argument"] with no network
call and an unchanged client. -/
theorem setPower_validation (s : SonyRemote) (st : String)
    (h1 : st ≠ "active") (h2 : st ≠ "standby") :
    (s.power "active").2 = OpResult.sent
      { reqUrl := "http://" ++ s.ip ++ "/" ++ s.url ++ "/" ++ "system",
        bodyJson := Json.obj
          [("method", Json.str "setPowerStatus"),
           ("params", Json.arr [Json.obj [("status", Json.bool true)]]),
           ("id", Json.num s.id),
           ("version", Json.str s.version)] } ∧
    (s.power "standby").2 = OpResult.sent
      { reqUrl := "http://" ++ s.ip ++ "/" ++ s.url ++ "/" ++ "system",
        bodyJson := Json.obj
          [("method", Json.str "setPowerStatus"),
           ("params", Json.arr [Json.obj [("status", Json.bool false)]]),
           ("id", Json.num s.id),
           ("version", Json.str s.version)] } ∧
    s.power st = (s, OpResult.noCall (Json.obj
      [("error", Json.arr [Json.num 3, Json.str "Illegal Argument"])])) := by
  refine ⟨rfl, rfl, ?_⟩
  unfold SonyRemote.power
  rw [if_neg (by simpa using h1), if_neg (by simpa using h2)]

/-- Closed instance of setPower_validation at status "muted". -/
theorem setPower_validation_witness :
    (SonyRemote.init "192.168.1.100" "1234" "1.0").power "muted" =
      (SonyRemote.init "192.168.1.100" "1234" "1.0",
       OpResult.noCall (Json.obj
        [("error", Json.arr [Json.num 3, Json.str "Illegal Argument"])])) :=
  (setPower_validation (SonyRemote.init "192.168.1.100" "1234" "1.0") "muted"
    (by decide) (by decide)).2.2

/-- The request an operation sends, when it sends one. -/
def OpResult.sentReq : OpResult → Option HttpRequest
  | OpResult.sent r => some r
  | OpResult.noCall _ => none

/-- The body of a request for a given method, argument mapping and version,
as _build_request serializes it. -/
def requestBody (method : String) (kvs : List (String × Json)) (ver : String) : Json :=
  Json.obj
    [("method", Json.str method),
     ("params", Json.arr [Json.obj kvs]),
     ("id", Json.num 1),
     ("version", Json.str ver)]

/-- C2: on a client freshly constructed with base version v, every catalogue
operation sends the method name, URL path segment and protocol version of
the catalogue table: power uses setPowerStatus on system at v, volume uses
setAudioVolume on audio at "1.2" whatever v is, app uses setActiveApp on
appControl at v, reboot uses requestReboot on system at v, screen_mirror
uses setPlayContent on avContent at v with the fixed uri, list_apps uses
getApplicationList on appControl at v, list_inputs uses
getCurrentExternalInputsStatus on avContent at "1.1" whatever v is, and
check_power uses getPowerStatus on system at v. -/
theorem catalogue_round_trip (h p v vol ui tgt uri : String) :
    ((SonyRemote.init h p v).power "active").2.sentReq = some
      { reqUrl := "http://" ++ h ++ "/" ++ "sony" ++ "/" ++ "system",
        bodyJson := requestBody "setPowerStatus" [("status", Json.bool true)] v } ∧
    ((SonyRemote.init h p v).volume vol ui tgt).2.sentReq = some
      { reqUrl := "http://" ++ h ++ "/" ++ "sony" ++ "/" ++ "audio",
        bodyJson := requestBody "setAudioVolume"
          [("volume", Json.str vol), ("ui", Json.str ui), ("target", Json.str tgt)]
          "1.2" } ∧
    ((SonyRemote.init h p v).app uri).2.sentReq = some
      { reqUrl := "http://" ++ h ++ "/" ++ "sony" ++ "/" ++ "appControl",
        bodyJson := requestBody "setActiveApp" [("uri", Json.str uri)] v } ∧
    ((SonyRemote.init h p v).reboot).2.sentReq = some
      { reqUrl := "http://" ++ h ++ "/" ++ "sony" ++ "/" ++ "system",
        bodyJson := requestBody "requestReboot" [] v } ∧
    ((SonyRemote.init h p v).screen_mirror).2.sentReq = some
      { reqUrl := "http://" ++ h ++ "/" ++ "sony" ++ "/" ++ "avContent",
        bodyJson := requestBody "setPlayContent"
          [("uri", Json.str "extInput:widi?port=1")] v } ∧
    ((SonyRemote.init h p v).list_apps).2.sentReq = some
      { reqUrl := "http://" ++ h ++ "/" ++ "sony" ++ "/" ++ "appControl",
        bodyJson := requestBody "getApplicationList" [] v } ∧
    ((SonyRemote.init h p v).list_inputs).2.sentReq = some
      { reqUrl := "http://" ++ h ++ "/" ++ "sony" ++ "/" ++ "avContent",
        bodyJson := requestBody "getCurrentExternalInputsStatus" [] "1.1" } ∧
    ((SonyRemote.init h p v).check_power).2.sentReq = some
      { reqUrl := "http://" ++ h ++ "/" ++ "sony" ++ "/" ++ "system",
        bodyJson := requestBody "getPowerStatus" [] v } :=
  ⟨rfl, rfl, rfl, rfl, rfl, rfl, rfl, rfl⟩

/-- Any request _build_request constructs carries exactly its kwargs as the
single params element, and the id stored in the client (never written after
__init__). -/
theorem build_request_params (s : SonyRemote) (hid : s.id = 1)
    (m pa : String) (ver : Option String) (kvs : List (String × Json)) :
    paramsExactly (OpResult.sent (s.build_request m pa ver kvs).2) kvs := by
  intro r hr
  injection hr with hr
  subst hr
  cases ver with
  | none => simp [SonyRemote.build_request, pySubscript, jsonLookupList, hid]
  | some v =>
    by_cases hv : (v != "") = true
    · simp [SonyRemote.build_request, pySubscript, jsonLookupList, hid, hv]
    · have hv2 : v = "" := by simpa using hv
      subst hv2
      simp [SonyRemote.build_request, pySubscript, jsonLookupList, hid]

/-- C3: for every catalogue operation and all argument values, any request
it sends has a params field that is an array of length exactly one whose
element is the mapping of exactly the operation's declared arguments, and
an id field equal to the literal 1. Stated for any client whose stored id
is 1, which holds of every constructed client since __init__ sets id 1 and
nothing ever writes it. -/
theorem params_singleton_invariant (s : SonyRemote) (hid : s.id = 1)
    (st vol ui tgt uri : String) :
    paramsExactly (s.power st).2 [("status", Json.bool (st == "active"))] ∧
    paramsExactly (s.volume vol ui tgt).2
      [("volume", Json.str vol), ("ui", Json.str ui), ("target", Json.str tgt)] ∧
    paramsExactly (s.app uri).2 [("uri", Json.str uri)] ∧
    paramsExactly (s.reboot).2 [] ∧
    paramsExactly (s.screen_mirror).2 [("uri", Json.str "extInput:widi?port=1")] ∧
    paramsExactly (s.list_apps).2 [] ∧
    paramsExactly (s.list_inputs).2 [] ∧
    paramsExactly (s.check_power).2 [] := by
  refine ⟨?_, build_request_params s hid _ _ _ _, build_request_params s hid _ _ _ _,
    build_request_params s hid _ _ _ _, build_request_params s hid _ _ _ _,
    build_request_params s hid _ _ _ _, build_request_params s hid _ _ _ _,
    build_request_params s hid _ _ _ _⟩
  intro r hr
  unfold SonyRemote.power at hr
  by_cases h1 : (st == "active") = true
  · rw [if_pos h1] at hr
    rw [show Json.bool (st == "active") = Json.bool true by rw [h1]]
    exact build_request_params s hid "setPowerStatus" "system" none
      [("status", Json.bool true)] r hr
  · rw [if_neg h1] at hr
    by_cases h2 : (st == "standby") = true
    · rw [if_pos h2] at hr
      have h1f : (st == "active") = false := by simpa using h1
      rw [show Json.bool (st == "active") = Json.bool false by rw [h1f]]
      exact build_request_params s hid "setPowerStatus" "system" none
        [("status", Json.bool false)] r hr
    · rw [if_neg h2] at hr
      exact absurd hr (by simp)

/-- Closed instance of params_singleton_invariant on a fresh client. -/
theorem params_singleton_invariant_witness :
    paramsExactly ((SonyRemote.init "h" "p" "1.0").reboot).2 [] :=
  (params_singleton_invariant (SonyRemote.init "h" "p" "1.0") rfl
    "active" "5" "on" "" "u").2.2.2.1

/-- C4: a decoded response whose error field is [errorCode, errorMessage]
renders as the message, " | ", the arguments used; plus the usage help when
the code is 3, the hint "No Such Method (Check version)" when it is 12,
the hint "Unsupported Version" when it is 14; and the exit status is 1. -/
theorem failure_rendering (kvs : List (String × Json)) (c : Int) (m args : String)
    (h : jsonLookupList kvs "error" = some (Json.arr [Json.num c, Json.str m])) :
    render (Json.obj kvs) args = Except.ok
      ([Out.text (m ++ " | " ++ args ++ "\n")]
        ++ (if c = 3 then [Out.help] else [])
        ++ (if c = 12 then [Out.text "No Such Method (Check version)"] else [])
        ++ (if c = 14 then [Out.text "Unsupported Version"] else []), 1) := by
  simp [render, pyContains, pySubscript, pyIndexNat, pyStr, jeqNum, h]

/-- Closed instance of failure_rendering on the error body [12, No Such
Method]: the message line and the version hint are printed and the exit
status is 1. -/
theorem failure_rendering_witness :
    render (Json.obj [("error", Json.arr [Json.num 12, Json.str "No Such Method"])])
        "\x7b\x7d" = Except.ok
      ([Out.text "No Such Method | \x7b\x7d\n",
        Out.text "No Such Method (Check version)"], 1) := by
  rw [failure_rendering [("error", Json.arr [Json.num 12, Json.str "No Such Method"])]
    12 "No Such Method" "\x7b\x7d" rfl]
  rfl

/-- C5: a Success response whose result list is non-empty with a truthy
first element prints one row per element — of the inner list when the
result has exactly one element and that element is itself a list (one
level of unwrapping), of the result itself otherwise — each row being the
indent-2 pretty-printed JSON text with double quotes and braces removed;
the exit status is 0. -/
theorem success_rows_rendering (kvs : List (String × Json)) (r0 : Json)
    (rest : List Json) (args : String)
    (h1 : jsonLookupList kvs "error" = none)
    (h2 : jsonLookupList kvs "result" = some (Json.arr (r0 :: rest)))
    (h3 : jsonTruthy r0 = true) :
    render (Json.obj kvs) args = Except.ok
      ((resultsRows (r0 :: rest)).map fun it => Out.text (stripChars (dumpsInd 0 it)),
       0) := by
  cases rest with
  | nil =>
    cases r0 <;>
      simp_all [render, pyContains, pySubscript, pyIndexNat, pyIter, pyLen,
        jsonTruthy, resultsRows]
  | cons b bs =>
    have hlen : (bs.length + 2 == 1) = false := by
      simp only [beq_eq_false_iff_ne]
      omega
    cases r0 <;>
      simp_all [render, pyContains, pySubscript, pyIndexNat, pyIter, pyLen,
        jsonTruthy, resultsRows]

/-- Closed instance of success_rows_rendering on the body holding the
result [[row a 1, row a 2]]: the single-element result is unwrapped and
exactly two rows are printed, braces stripped. -/
theorem success_rows_rendering_witness :
    render (Json.obj [("result", Json.arr
        [Json.arr [Json.obj [("a", Json.num 1)], Json.obj [("a", Json.num 2)]]])])
        "A" = Except.ok
      ([Out.text "\n  a: 1\n", Out.text "\n  a: 2\n"], 0) := by
  rw [success_rows_rendering
    [("result", Json.arr
      [Json.arr [Json.obj [("a", Json.num 1)], Json.obj [("a", Json.num 2)]]])]
    (Json.arr [Json.obj [("a", Json.num 1)], Json.obj [("a", Json.num 2)]])
    [] "A" rfl rfl rfl]
  rfl

/-- C6 counterexample: on a client constructed with base version "1.0",
calling volume overwrites the stored version with "1.2" (base is an alias
of _base_data, not a copy), and a later check_power — an operation with no
override — sends version "1.2", not the "1.0" configured at construction. -/
theorem version_mutation_counterexample :
    ((SonyRemote.init "192.168.1.100" "1234" "1.0").volume "10" "on" "").1.version
      = "1.2" ∧
    ("1.2" : String) ≠ "1.0" ∧
    (((SonyRemote.init "192.168.1.100" "1234" "1.0").volume "10" "on" "").1.check_power).2.sentReq
      = some
        { reqUrl := "http://" ++ "192.168.1.100" ++ "/" ++ "sony" ++ "/" ++ "system",
          bodyJson := requestBody "getPowerStatus" [] "1.2" } :=
  ⟨rfl, by decide, rfl⟩

/-- C6 as amended: host, psk and id are never written after construction,
and every operation without a version override returns the client state
unchanged; but volume and list_inputs overwrite the stored version with
their override ("1.2", "1.1"), so the protocol version a later operation
sends is the last override, not necessarily the constructed one. -/
theorem client_state_after_ops (s : SonyRemote) (st vol ui tgt uri : String) :
    (s.power st).1 = s ∧
    (s.app uri).1 = s ∧
    s.reboot.1 = s ∧
    s.screen_mirror.1 = s ∧
    s.list_apps.1 = s ∧
    s.check_power.1 = s ∧
    (s.volume vol ui tgt).1 = { s with version := "1.2" } ∧
    s.list_inputs.1 = { s with version := "1.1" } := by
  refine ⟨?_, rfl, rfl, rfl, rfl, rfl, rfl, rfl⟩
  unfold SonyRemote.power
  split
  · rfl
  · split <;> rfl

/-- C7: a decoded body with neither a result nor an error key is printed
raw (its Python repr, unchanged) with exit status 0; and a Success body
whose result list is empty, or has a falsy first element, produces no
output and exit status 0. -/
theorem fallback_and_noop_rendering (kvs : List (String × Json)) (args : String) :
    (jsonLookupList kvs "error" = none → jsonLookupList kvs "result" = none →
      render (Json.obj kvs) args = Except.ok ([Out.text (pyRepr (Json.obj kvs))], 0)) ∧
    (∀ rs, jsonLookupList kvs "error" = none →
      jsonLookupList kvs "result" = some (Json.arr rs) →
      (rs = [] ∨ ∃ r0 rest, rs = r0 :: rest ∧ jsonTruthy r0 = false) →
      render (Json.obj kvs) args = Except.ok ([], 0)) := by
  constructor
  · intro h1 h2
    simp [render, pyContains, pySubscript, h1, h2]
  · rintro rs h1 h2 (rfl | ⟨r0, rest, rfl, h3⟩)
    · simp [render, pyContains, pySubscript, jsonTruthy, h1, h2]
    · have htr : jsonTruthy (Json.arr (r0 :: rest)) = true := by simp [jsonTruthy]
      simp [render, pyContains, pySubscript, pyIndexNat, h1, h2, htr, h3]

/-- Closed instance of fallback_and_noop_rendering: a body with only a
status key prints its repr and exits 0; a body whose result is the empty
list prints nothing and exits 0. -/
theorem fallback_and_noop_rendering_witness :
    render (Json.obj [("status", Json.str "ok")]) "A"
      = Except.ok ([Out.text (pyRepr (Json.obj [("status", Json.str "ok")]))], 0) ∧
    render (Json.obj [("result", Json.arr [])]) "A" = Except.ok ([], 0) :=
  ⟨(fallback_and_noop_rendering [("status", Json.str "ok")] "A").1 rfl rfl,
   (fallback_and_noop_rendering [("result", Json.arr [])] "A").2
     [] rfl rfl (Or.inl rfl)⟩

/-- C8 counterexample: an unknown subcommand token makes argparse exit with
status 2, not 1. -/
theorem unknown_command_exit_counterexample :
    resolveCommand (some "poweroff") = ParseOutcome.usageExit 2 ∧
    ParseOutcome.usageExit 2 ≠ ParseOutcome.usageExit 1 := by
  constructor
  · decide
  · decide

/-- C8 as amended: any rendering that completes exits 0 when the body has
no error field and 1 when it has one (so 1 on every Failure variant,
including the locally synthesized one, and 0 on every Success rendering,
the no-op and fallback cases included); a missing subcommand exits 1; an
unknown subcommand exits non-zero, namely 2 via argparse. -/
theorem exit_code_policy :
    (∀ (resp : Json) (args : String) (outs : List Out) (n : Nat),
      pyContains resp "error" = Except.ok true →
      render resp args = Except.ok (outs, n) → n = 1) ∧
    (∀ (resp : Json) (args : String) (outs : List Out) (n : Nat),
      pyContains resp "error" = Except.ok false →
      render resp args = Except.ok (outs, n) → n = 0) ∧
    resolveCommand none = ParseOutcome.usageExit 1 ∧
    (∀ tok, commandNames.contains tok = false →
      resolveCommand (some tok) = ParseOutcome.usageExit 2) := by
  refine ⟨?_, ?_, rfl, ?_⟩
  · intro resp args outs n hc hr
    unfold render at hr
    rw [hc] at hr
    simp only [] at hr
    cases hsub : pySubscript resp "error" with
    | error e => rw [hsub] at hr; simp at hr
    | ok err =>
      rw [hsub] at hr
      simp only [] at hr
      cases hm : pyIndexNat err 1 with
      | error e => rw [hm] at hr; simp at hr
      | ok msg =>
        rw [hm] at hr
        simp only [] at hr
        cases hc0 : pyIndexNat err 0 with
        | error e => rw [hc0] at hr; simp at hr
        | ok code =>
          rw [hc0] at hr
          simp only [Except.ok.injEq, Prod.mk.injEq] at hr
          exact hr.2.symm
  · intro resp args outs n hc hr
    unfold render at hr
    rw [hc] at hr
    simp only [] at hr
    cases hres : pyContains resp "result" with
    | error e => rw [hres] at hr; simp at hr
    | ok b =>
      rw [hres] at hr
      cases b with
      | false =>
        simp only [] at hr
        simp only [Except.ok.injEq, Prod.mk.injEq] at hr
        exact hr.2.symm
      | true =>
        simp only [] at hr
        cases hsub : pySubscript resp "result" with
        | error e => rw [hsub] at hr; simp at hr
        | ok r =>
          rw [hsub] at hr
          simp only [] at hr
          by_cases ht : jsonTruthy r = true
          · rw [if_pos ht] at hr
            cases h0 : pyIndexNat r 0 with
            | error e => rw [h0] at hr; simp at hr
            | ok r0 =>
              rw [h0] at hr
              simp only [] at hr
              by_cases ht0 : jsonTruthy r0 = true
              · rw [if_pos ht0] at hr
                rcases hsel : (match r0 with
                  | Json.arr inner =>
                    match pyLen r with
                    | Except.error e => Except.error e
                    | Except.ok k => Except.ok (if (k == 1) = true then Json.arr inner else r)
                  | _ => Except.ok r) with e2 | results
                · rw [hsel] at hr; simp at hr
                · rw [hsel] at hr
                  simp only [] at hr
                  cases hit : pyIter results with
                  | error e => rw [hit] at hr; simp at hr
                  | ok items =>
                    rw [hit] at hr
                    simp only [Except.ok.injEq, Prod.mk.injEq] at hr
                    exact hr.2.symm
              · rw [if_neg ht0] at hr
                simp only [Except.ok.injEq, Prod.mk.injEq] at hr
                exact hr.2.symm
          · rw [if_neg ht] at hr
            simp only [Except.ok.injEq, Prod.mk.injEq] at hr
            exact hr.2.symm
  · intro tok htok
    have hmem : tok ∉ commandNames := by simpa using htok
    simp [resolveCommand, hmem]

/-- Closed instance of exit_code_policy: the body error [7, E] renders with
exit status 1, the body with an empty result renders with exit status 0,
and a missing subcommand exits 1. -/
theorem exit_code_policy_witness :
    (1 : Nat) = 1 ∧ (0 : Nat) = 0 ∧ resolveCommand none = ParseOutcome.usageExit 1 :=
  ⟨exit_code_policy.1 (Json.obj [("error", Json.arr [Json.num 7, Json.str "E"])])
      "A" [Out.text "E | A\n"] 1 rfl rfl,
   exit_code_policy.2.1 (Json.obj [("result", Json.arr [])]) "A" [] 0 rfl rfl,
   exit_code_policy.2.2.1⟩

/-- C9 counterexample: the underscored form list_apps is not a registered
subcommand name — only the hyphenated list-apps is — so it is rejected with
usage output and exit status 2 instead of resolving to the list_apps
operation. -/
theorem underscored_command_counterexample :
    resolveCommand (some "list_apps") = ParseOutcome.usageExit 2 ∧
    (∀ m, resolveCommand (some "list_apps") ≠ ParseOutcome.resolved m) := by
  constructor
  · decide
  · intro m h
    rw [show resolveCommand (some "list_apps") = ParseOutcome.usageExit 2
      from by decide] at h
    exact absurd h (by simp)

/-- C9 as amended: the set of valid top-level command names is exactly the
eight catalogue method names with every underscore replaced by a hyphen;
each such hyphenated name resolves to its operation, and no other token
resolves to anything. The underscored spellings are not interchangeable:
a token containing an underscore is accepted only when the method name
itself has none. -/
theorem command_resolution (tok m2 : String) (hm : m2 ∈ methodNames) :
    commandNames = ["app", "check-power", "list-apps", "list-inputs",
      "power", "reboot", "screen-mirror", "volume"] ∧
    resolveCommand (some (hyphenate m2)) = ParseOutcome.resolved m2 ∧
    (∀ m, resolveCommand (some tok) = ParseOutcome.resolved m →
      tok ∈ commandNames) := by
  refine ⟨by decide, ?_, ?_⟩
  · fin_cases hm <;> decide
  · intro m h
    by_cases hc : tok ∈ commandNames
    · exact hc
    · have hcf : commandNames.contains tok = false := by simpa using hc
      simp only [resolveCommand, hcf] at h
      exact absurd h (by simp)

/-- Closed instance of command_resolution at the method list_apps: the
hyphenated form resolves to it. -/
theorem command_resolution_witness :
    resolveCommand (some (hyphenate "list_apps")) = ParseOutcome.resolved "list_apps" :=
  (command_resolution "x" "list_apps" (by decide)).2.1

/-- C10: rendering assumes the decoded body is a mapping. A decoded body
that is a string containing "error" as a substring, or a list containing
the string "error" as an element, passes the membership test but then the
error-field lookup raises a TypeError and the process crashes, never
reaching the raw-body fallback branch. -/
theorem nonmapping_body_crash (args : String) :
    (∀ s, strContains s "error" = true →
      render (Json.str s) args = Except.error PyError.typeError) ∧
    (∀ xs, (xs.any fun x =>
        match x with
        | Json.str t => t == "error"
        | _ => false) = true →
      render (Json.arr xs) args = Except.error PyError.typeError) := by
  constructor
  · intro s hs
    simp [render, pyContains, pySubscript, hs]
  · intro xs hx
    simp [render, pyContains, pySubscript, hx]

/-- Closed instance of nonmapping_body_crash: the string body
"internal error" and the list body [error] both crash with a TypeError. -/
theorem nonmapping_body_crash_witness :
    render (Json.str "internal error") "A" = Except.error PyError.typeError ∧
    render (Json.arr [Json.str "error"]) "A" = Except.error PyError.typeError :=
  ⟨(nonmapping_body_crash "A").1 "internal error" (by decide),
   (nonmapping_body_crash "A").2 [Json.str "error"] (by decide)⟩

end SonyRemoteSpec
